import Mathlib

/-!
Verification development for the solana_vesting program.

The definitions below are a shallow embedding of the program's Rust source:

* `calculate_amount`, `create_vesting`, `claim_step` embed the logic of
  `src/processor.rs` (the unlock calculator, the CreateVesting parameter
  checks, and the Claim instruction logic).
* `process_claim_checks` embeds the account-validation sequence of the
  Claim arm of `process` in `src/processor.rs`.
* `VestingRecord.serialize` / `VestingRecord.deserialize` embed the Borsh
  persistence of the nine-field `Vesting` account data of `src/pda.rs`.

Machine integers are modelled as `Nat` with explicit bounds: a `u64` value
is a `Nat` below `U64 = 2 ^ 64`.  Fallible Rust code (explicit `Err`
returns, arithmetic panics, failed SPL token transfers) is modelled with
`Option` / `Except`: a `none` / `.error` result stands for the instruction
aborting with no state change, which is what the hosting transaction model
guarantees.
-/

/-- Bound of the `u64` domain. -/
def U64 : Nat := 2 ^ 64

/-- Bound of the `u128` domain. -/
def U128 : Nat := 2 ^ 128

/-- Custom error codes of the program, from `src/error.rs`; the variants
`NotOwnedByTokenProgram` and `UnauthorizedClaimer` are referenced by
`src/processor.rs` (the spec lists both in its error taxonomy). -/
inductive CustomError where
  | InvalidPDAKey
  | ZeroAmount
  | CliffOverDuration
  | StartCliffOverflow
  | WriteToPDAForbidden
  | NotOwnedByTokenProgram
  | UnauthorizedClaimer
deriving DecidableEq, Repr

/-- Program-level errors surfaced by the processor: either a builtin
`ProgramError` variant used by the code or a custom error. -/
inductive ProgErr where
  | MissingRequiredSignature
  | Custom (e : CustomError)
deriving DecidableEq, Repr

/-- Vesting schedule state as read and written by `src/processor.rs`
(fields `amount`, `claimed`, `start`, `cliff`, `duration`, all `u64`). -/
structure Vesting where
  amount : Nat
  claimed : Nat
  start : Nat
  cliff : Nat
  duration : Nat
deriving DecidableEq, Repr

/-- Unlock calculator, embedding `calculate_amount` of `src/processor.rs`:

    if start + cliff > now { return 0; }
    let passed = if now - start > duration { duration } else { now - start };
    (vesting_amount as u128 * passed as u128 / duration as u128) as u64

The `u64` addition `start + cliff` overflowing and the `u128` division by
zero (when `duration = 0`) are arithmetic faults, modelled as `none`; the
final `as u64` narrowing truncates, modelled by the explicit `% U64`. -/
def calculate_amount (start cliff duration vesting_amount now : Nat) : Option Nat :=
  if U64 ≤ start + cliff then
    none
  else if now < start + cliff then
    some 0
  else if duration = 0 then
    none
  else
    let passed := if duration < now - start then duration else now - start
    some (vesting_amount * passed / duration % U64)

/-- Parameter validation and record creation of `create_vesting` in
`src/processor.rs`: `start.overflowing_add(cliff)` overflow check, then
`cliff > duration`, then `amount == 0`; on success the stored record is
`Vesting { amount, claimed: 0, start, cliff, duration }`.  An error return
happens before any account is created or written. -/
def create_vesting (amount start cliff duration : Nat) : Except ProgErr Vesting :=
  if U64 ≤ start + cliff then
    .error (.Custom .StartCliffOverflow)
  else if duration < cliff then
    .error (.Custom .CliffOverDuration)
  else if amount = 0 then
    .error (.Custom .ZeroAmount)
  else
    .ok { amount := amount, claimed := 0, start := start, cliff := cliff, duration := duration }

/-- Claim instruction logic, embedding `claim` of `src/processor.rs` acting
on a vesting record `v` and the Vault's current token balance `bal` at
clock value `now`:

    let total = calculate_amount(start, cliff, duration, amount, now);
    let distributed = total - claimed;
    claimed = total;
    transfer_out(distributed);

The `u64` subtraction underflows when `total < claimed` (a panic), and the
SPL token transfer fails when `distributed` exceeds the Vault balance; both
abort the instruction with no state change, modelled as `none`.  On success
the result carries the updated record, the amount moved out of the Vault,
and the Vault's new balance. -/
def claim_step (v : Vesting) (bal now : Nat) : Option (Vesting × Nat × Nat) :=
  match calculate_amount v.start v.cliff v.duration v.amount now with
  | none => none
  | some total =>
    if total < v.claimed then
      none
    else
      if bal < total - v.claimed then
        none
      else
        some ({ v with claimed := total }, total - v.claimed, bal - (total - v.claimed))

/-- Account-validation sequence of the Claim arm of `process` in
`src/processor.rs`, over the data those checks read: the signer flag and
key, the owners of the mint and wallet accounts (compared against the SPL
token program id `splId`), the instruction's `user`, and whether the
Vesting and Vault PDAs match their derived addresses. -/
structure ClaimAccountsModel where
  signerIsSigner : Bool
  signerKey : Nat
  mintOwner : Nat
  walletOwner : Nat
  vestingKeyValid : Bool
  vaultKeyValid : Bool
deriving DecidableEq, Repr

/-- Claim-arm validations of `process` in `src/processor.rs`, in source
order: missing signature, mint owner, wallet owner, the explicit
`*signer.key != user` test returning `UnauthorizedClaimer`, then the two
PDA derivation checks. -/
def process_claim_checks (splId : Nat) (a : ClaimAccountsModel) (user : Nat) :
    Except ProgErr Unit :=
  if !a.signerIsSigner then
    .error .MissingRequiredSignature
  else if a.mintOwner ≠ splId then
    .error (.Custom .NotOwnedByTokenProgram)
  else if a.walletOwner ≠ splId then
    .error (.Custom .NotOwnedByTokenProgram)
  else if a.signerKey ≠ user then
    .error (.Custom .UnauthorizedClaimer)
  else if !a.vestingKeyValid then
    .error (.Custom .InvalidPDAKey)
  else if !a.vaultKeyValid then
    .error (.Custom .InvalidPDAKey)
  else
    .ok ()

/-- Observable input of one Claim invocation against a schedule: the clock
value and the Vault balance at that invocation. -/
structure ClaimEv where
  now : Nat
  vault : Nat
deriving DecidableEq, Repr

/-- Effect of one Claim invocation on the stored vesting record: a failed
invocation aborts the transaction and leaves the record unchanged. -/
def applyClaim (v : Vesting) (e : ClaimEv) : Vesting :=
  match claim_step v e.vault e.now with
  | none => v
  | some (v', _, _) => v'

/-- States of a vesting record reachable from `v₀` by any sequence of Claim
invocations. -/
inductive ReachableFrom (v₀ : Vesting) : Vesting → Prop where
  | init : ReachableFrom v₀ v₀
  | claim (v : Vesting) (e : ClaimEv) : ReachableFrom v₀ v → ReachableFrom v₀ (applyClaim v e)

/-- Little-endian byte encoding of a machine integer, `k` bytes wide; this
is how Borsh lays out a `u64` (`k = 8`). -/
def bytesLE : Nat → Nat → List Nat
  | 0, _ => []
  | k + 1, n => n % 256 :: bytesLE k (n / 256)

/-- Little-endian byte decoding, inverse of `bytesLE` on in-range values. -/
def unbytesLE : List Nat → Nat
  | [] => 0
  | b :: bs => b + 256 * unbytesLE bs

/-- Persisted vesting record of `src/pda.rs` (`struct Vesting`): four
32-byte public keys followed by five `u64` fields, in declared order.
Public keys are modelled as their 32 raw bytes. -/
structure VestingRecord where
  beneficiary : List Nat
  mint : List Nat
  seed_key : List Nat
  creator : List Nat
  amount : Nat
  claimed : Nat
  start : Nat
  cliff : Nat
  duration : Nat
deriving DecidableEq, Repr

/-- Validity of a `VestingRecord` value: each key is 32 bytes and each
integer field is in the `u64` domain. -/
def VestingRecord.valid (r : VestingRecord) : Prop :=
  r.beneficiary.length = 32 ∧ r.mint.length = 32 ∧ r.seed_key.length = 32 ∧
    r.creator.length = 32 ∧ r.amount < U64 ∧ r.claimed < U64 ∧ r.start < U64 ∧
    r.cliff < U64 ∧ r.duration < U64

/-- Borsh serialization of the record as performed by
`PDA<Vesting>::write` in `src/pda.rs`: fixed-width fields concatenated in
declared order, public keys as raw bytes, `u64` fields little-endian. -/
def VestingRecord.serialize (r : VestingRecord) : List Nat :=
  r.beneficiary ++ (r.mint ++ (r.seed_key ++ (r.creator ++ (bytesLE 8 r.amount ++
    (bytesLE 8 r.claimed ++ (bytesLE 8 r.start ++ (bytesLE 8 r.cliff ++
      bytesLE 8 r.duration)))))))

/-- Reading a fixed-width field from the byte stream: the next `k` bytes
and the remainder, failing when fewer than `k` bytes remain. -/
def readBytes (k : Nat) (bs : List Nat) : Option (List Nat × List Nat) :=
  if k ≤ bs.length then some (bs.take k, bs.drop k) else none

/-- Borsh deserialization of the record as performed by
`Vesting::try_from_slice` in `PDA<Vesting>::new` of `src/pda.rs`: the nine
fields read in declared order, failing on a short buffer or on trailing
bytes. -/
def VestingRecord.deserialize (bs : List Nat) : Option VestingRecord := do
  let (beneficiary, bs) ← readBytes 32 bs
  let (mint, bs) ← readBytes 32 bs
  let (seed_key, bs) ← readBytes 32 bs
  let (creator, bs) ← readBytes 32 bs
  let (amountB, bs) ← readBytes 8 bs
  let (claimedB, bs) ← readBytes 8 bs
  let (startB, bs) ← readBytes 8 bs
  let (cliffB, bs) ← readBytes 8 bs
  let (durationB, bs) ← readBytes 8 bs
  if bs.isEmpty then
    some ⟨beneficiary, mint, seed_key, creator, unbytesLE amountB, unbytesLE claimedB,
      unbytesLE startB, unbytesLE cliffB, unbytesLE durationB⟩
  else
    none

/-- Characterization of the unlock calculator: a successful result is
either the pre-cliff zero or the interpolation value with elapsed time
clamped to the duration. -/
theorem calculate_amount_some_iff (start cliff duration amount now t : Nat) :
    calculate_amount start cliff duration amount now = some t ↔
      (start + cliff < U64 ∧ now < start + cliff ∧ t = 0) ∨
      (start + cliff < U64 ∧ start + cliff ≤ now ∧ duration ≠ 0 ∧
        t = amount * min (now - start) duration / duration % U64) := by
  have hmin : (if duration < now - start then duration else now - start) =
      min (now - start) duration := by
    rcases Nat.lt_or_ge duration (now - start) with h | h
    · rw [if_pos h, Nat.min_eq_right (Nat.le_of_lt h)]
    · rw [if_neg (by omega), Nat.min_eq_left h]
  unfold calculate_amount
  rcases Nat.lt_or_ge (start + cliff) U64 with h64 | h64
  · rw [if_neg (by omega)]
    rcases Nat.lt_or_ge now (start + cliff) with hc | hc
    · rw [if_pos hc]
      constructor
      · intro h
        left
        exact ⟨h64, hc, by simpa using h.symm⟩
      · rintro (⟨_, _, rfl⟩ | ⟨_, hge, _, _⟩)
        · rfl
        · omega
    · rw [if_neg (by omega)]
      by_cases hd : duration = 0
      · rw [if_pos hd]
        constructor
        · intro h
          exact absurd h (by simp)
        · rintro (⟨_, hlt, _⟩ | ⟨_, _, hd', _⟩)
          · omega
          · exact absurd hd hd'
      · rw [if_neg hd]
        simp only [hmin, Option.some.injEq]
        constructor
        · intro h
          right
          exact ⟨h64, hc, hd, h.symm⟩
        · rintro (⟨_, hlt, _⟩ | ⟨_, _, _, rfl⟩)
          · omega
          · rfl
  · rw [if_pos h64]
    constructor
    · intro h
      exact absurd h (by simp)
    · rintro (⟨h, _, _⟩ | ⟨h, _, _, _⟩) <;> omega

/-- Helper bound: the clamped interpolation never exceeds the grant. -/
theorem interp_le_amount (amount m duration : Nat) (hm : m ≤ duration) :
    amount * m / duration ≤ amount :=
  Nat.div_le_of_le_mul (le_trans (Nat.mul_le_mul_left amount hm)
    (le_of_eq (Nat.mul_comm amount duration)))

/-- Helper: any successful unlock result is at most the grant `amount`. -/
theorem calculate_amount_le (start cliff duration amount now t : Nat)
    (h : calculate_amount start cliff duration amount now = some t) : t ≤ amount := by
  rcases (calculate_amount_some_iff start cliff duration amount now t).1 h with
    ⟨_, _, rfl⟩ | ⟨_, _, hd, rfl⟩
  · exact Nat.zero_le amount
  · exact le_trans (Nat.mod_le _ _)
      (interp_le_amount amount _ duration (Nat.min_le_right _ _))

/-- Helper: with a nonzero duration and no `start + cliff` overflow the
unlock calculator is total. -/
theorem calculate_amount_total (start cliff duration amount now : Nat)
    (h64 : start + cliff < U64) (hd : duration ≠ 0) :
    ∃ t, calculate_amount start cliff duration amount now = some t := by
  rcases Nat.lt_or_ge now (start + cliff) with hc | hc
  · exact ⟨0, (calculate_amount_some_iff _ _ _ _ _ _).2 (Or.inl ⟨h64, hc, rfl⟩)⟩
  · exact ⟨_, (calculate_amount_some_iff _ _ _ _ _ _).2 (Or.inr ⟨h64, hc, hd, rfl⟩)⟩

/-- Helper inversion of a successful Claim invocation. -/
theorem claim_step_some_inv (v : Vesting) (bal now : Nat) (v' : Vesting) (d b' : Nat)
    (h : claim_step v bal now = some (v', d, b')) :
    ∃ total, calculate_amount v.start v.cliff v.duration v.amount now = some total ∧
      v.claimed ≤ total ∧ d = total - v.claimed ∧ d ≤ bal ∧ b' = bal - d ∧
      v' = { v with claimed := total } := by
  unfold claim_step at h
  split at h
  · exact absurd h (by simp)
  · rename_i total hcalc
    split at h
    · exact absurd h (by simp)
    · rename_i hle
      split at h
      · exact absurd h (by simp)
      · rename_i hbal
        simp only [Option.some.injEq, Prod.mk.injEq] at h
        exact ⟨total, hcalc, by omega, h.2.1.symm, by omega, by omega, h.1.symm⟩

/-- Helper: a Claim invocation never decreases the stored `claimed`. -/
theorem applyClaim_mono (v : Vesting) (e : ClaimEv) :
    v.claimed ≤ (applyClaim v e).claimed := by
  unfold applyClaim
  split
  · exact le_refl _
  · rename_i v' d b' h
    rcases claim_step_some_inv v e.vault e.now v' d b' h with ⟨total, _, hle, _, _, _, rfl⟩
    exact hle

/-- Helper: a Claim invocation keeps `claimed ≤ amount` and preserves every
schedule parameter. -/
theorem applyClaim_inv (v : Vesting) (e : ClaimEv) :
    (applyClaim v e).claimed ≤ v.amount ∨ applyClaim v e = v := by
  unfold applyClaim
  split
  · exact Or.inr rfl
  · rename_i v' d b' h
    rcases claim_step_some_inv v e.vault e.now v' d b' h with ⟨total, hcalc, _, _, _, _, rfl⟩
    exact Or.inl (calculate_amount_le _ _ _ _ _ _ hcalc)

/-- Helper: a Claim invocation never changes the schedule parameters. -/
theorem applyClaim_amount (v : Vesting) (e : ClaimEv) :
    (applyClaim v e).amount = v.amount := by
  unfold applyClaim
  split
  · rfl
  · rename_i v' d b' h
    rcases claim_step_some_inv v e.vault e.now v' d b' h with ⟨total, _, _, _, _, _, rfl⟩
    rfl

/-- Refined characterization for genuine `u64` grants: the result value is
below `U64`, so the narrowing `% U64` disappears. -/
theorem calculate_amount_some_iff_u64 (start cliff duration amount now t : Nat)
    (ha : amount < U64) :
    calculate_amount start cliff duration amount now = some t ↔
      (start + cliff < U64 ∧ now < start + cliff ∧ t = 0) ∨
      (start + cliff < U64 ∧ start + cliff ≤ now ∧ duration ≠ 0 ∧
        t = amount * min (now - start) duration / duration) := by
  have hsmall : amount * min (now - start) duration / duration % U64 =
      amount * min (now - start) duration / duration :=
    Nat.mod_eq_of_lt (lt_of_le_of_lt
      (interp_le_amount amount _ duration (Nat.min_le_right _ _)) ha)
  rw [calculate_amount_some_iff, hsmall]

/-- Helper: the unlock value is non-decreasing in the clock. -/
theorem calculate_amount_mono (start cliff duration amount n1 n2 t1 t2 : Nat)
    (ha : amount < U64) (h12 : n1 ≤ n2)
    (h1 : calculate_amount start cliff duration amount n1 = some t1)
    (h2 : calculate_amount start cliff duration amount n2 = some t2) : t1 ≤ t2 := by
  rcases (calculate_amount_some_iff_u64 start cliff duration amount n1 t1 ha).1 h1 with
    ⟨_, _, rfl⟩ | ⟨_, hc1, _, rfl⟩
  · rcases (calculate_amount_some_iff_u64 start cliff duration amount n2 t2 ha).1 h2 with
      ⟨_, _, rfl⟩ | _
    · exact le_refl 0
    · exact Nat.zero_le _
  · rcases (calculate_amount_some_iff_u64 start cliff duration amount n2 t2 ha).1 h2 with
      ⟨_, hc2, _⟩ | ⟨_, _, _, rfl⟩
    · omega
    · exact Nat.div_le_div_right (Nat.mul_le_mul_left amount
        (min_le_min (Nat.sub_le_sub_right h12 start) (le_refl duration)))

/-- Helper: width of the little-endian encoding. -/
theorem bytesLE_length (k n : Nat) : (bytesLE k n).length = k := by
  induction k generalizing n with
  | zero => rfl
  | succ k ih => simp [bytesLE, ih]

/-- Helper: decoding inverts the little-endian encoding up to the width. -/
theorem unbytesLE_bytesLE (k n : Nat) : unbytesLE (bytesLE k n) = n % 2 ^ (8 * k) := by
  induction k generalizing n with
  | zero => simp [bytesLE, unbytesLE, Nat.mod_one]
  | succ k ih =>
    have hpow : 2 ^ (8 * (k + 1)) = 256 * 2 ^ (8 * k) := by
      rw [Nat.mul_succ, Nat.pow_add]
      ring
    rw [bytesLE, unbytesLE, ih, hpow, Nat.mod_mul]

/-- Helper: reading `k` bytes from a stream that starts with a `k`-byte
block returns that block and the remainder. -/
theorem readBytes_append (k : Nat) (xs ys : List Nat) (h : xs.length = k) :
    readBytes k (xs ++ ys) = some (xs, ys) := by
  subst h
  unfold readBytes
  rw [if_pos (by simp), List.take_left, List.drop_left]

/-- Helper: reading exactly the remaining bytes leaves an empty stream. -/
theorem readBytes_exact (k : Nat) (xs : List Nat) (h : xs.length = k) :
    readBytes k xs = some (xs, []) := by
  have := readBytes_append k xs [] h
  simpa using this

/-- Claim C3: a vesting record produced by `create_vesting` satisfies
`0 ≤ claimed ≤ amount` in every state reachable through any sequence of
Claim invocations (failed invocations leave the state unchanged), and the
stored `claimed` never decreases across a further Claim invocation.  This
is proved for arbitrary (in particular every non-negative, non-decreasing)
clock sequences. -/
theorem vesting_claimed_invariant (amount start cliff duration : Nat) (v₀ v : Vesting)
    (hc : create_vesting amount start cliff duration = .ok v₀)
    (hr : ReachableFrom v₀ v) (e : ClaimEv) :
    0 ≤ v.claimed ∧ v.claimed ≤ v.amount ∧ v.claimed ≤ (applyClaim v e).claimed := by
  have hv₀ : v₀.claimed = 0 := by
    unfold create_vesting at hc
    split at hc
    · exact absurd hc (by simp)
    · split at hc
      · exact absurd hc (by simp)
      · split at hc
        · exact absurd hc (by simp)
        · simp only [Except.ok.injEq] at hc
          subst hc
          rfl
  have hinv : v.claimed ≤ v.amount := by
    induction hr with
    | init => rw [hv₀]; exact Nat.zero_le _
    | claim w e' _ ih =>
      rcases applyClaim_inv w e' with h | h
      · rw [applyClaim_amount]; exact h
      · rw [h]; exact ih
  exact ⟨Nat.zero_le _, hinv, applyClaim_mono v e⟩

/-- Claim C3 witness at a concrete schedule and claim event. -/
theorem vesting_claimed_invariant_witness :
    0 ≤ (⟨5, 0, 0, 0, 1⟩ : Vesting).claimed ∧
      (⟨5, 0, 0, 0, 1⟩ : Vesting).claimed ≤ (⟨5, 0, 0, 0, 1⟩ : Vesting).amount ∧
      (⟨5, 0, 0, 0, 1⟩ : Vesting).claimed ≤ (applyClaim ⟨5, 0, 0, 0, 1⟩ ⟨2, 5⟩).claimed :=
  vesting_claimed_invariant 5 0 0 1 ⟨5, 0, 0, 0, 1⟩ ⟨5, 0, 0, 0, 1⟩ rfl .init ⟨2, 5⟩

/-- Claim C6: strictly between cliff and schedule end the unlock value is
exactly `floor(amount * (now - start) / duration)`; the double-width
product stays below `2 ^ 128`, the quotient never exceeds `amount` (so the
narrowing back to `u64` is exact), and the spec's boundary values at
`start = 1000, cliff = 20, duration = 100, amount = 1000` hold. -/
theorem calculate_amount_linear_interpolation (start cliff duration amount now : Nat)
    (h64 : start + cliff < U64) (ha : amount < U64) (hn : now < U64)
    (h1 : start + cliff ≤ now) (h2 : now - start < duration) :
    calculate_amount start cliff duration amount now =
        some (amount * (now - start) / duration) ∧
      amount * (now - start) < U128 ∧
      amount * (now - start) / duration ≤ amount ∧
      calculate_amount 1000 20 100 1000 1019 = some 0 ∧
      calculate_amount 1000 20 100 1000 1020 = some 200 ∧
      calculate_amount 1000 20 100 1000 1099 = some 990 := by
  have hd : duration ≠ 0 := by omega
  have hmin : min (now - start) duration = now - start := Nat.min_eq_left (le_of_lt h2)
  refine ⟨?_, ?_, ?_, by decide, by decide, by decide⟩
  · rw [calculate_amount_some_iff_u64 start cliff duration amount now _ ha]
    right
    rw [hmin]
    exact ⟨h64, h1, hd, rfl⟩
  · calc amount * (now - start) ≤ (U64 - 1) * (U64 - 1) :=
          Nat.mul_le_mul (by omega) (by omega)
      _ < U128 := by decide
  · exact interp_le_amount amount (now - start) duration (le_of_lt h2)

/-- Claim C6 witness at the spec's schedule, halfway through vesting. -/
theorem calculate_amount_linear_interpolation_witness :
    calculate_amount 1000 20 100 1000 1050 =
        some (1000 * (1050 - 1000) / 100) ∧
      1000 * (1050 - 1000) < U128 ∧
      1000 * (1050 - 1000) / 100 ≤ 1000 ∧
      calculate_amount 1000 20 100 1000 1019 = some 0 ∧
      calculate_amount 1000 20 100 1000 1020 = some 200 ∧
      calculate_amount 1000 20 100 1000 1099 = some 990 :=
  calculate_amount_linear_interpolation 1000 20 100 1000 1050 (by decide) (by decide)
    (by decide) (by decide) (by decide)

/-- Claim C7: the CreateVesting parameter checks fire in source order —
`StartCliffOverflow` exactly on `u64` overflow of `start + cliff`,
`CliffOverDuration` exactly when overflow is absent and `cliff > duration`,
`ZeroAmount` exactly when both earlier checks pass and `amount = 0` — and
only when all three pass does creation proceed, producing the record with
`claimed = 0`.  Each error is returned before any account is created or
written. -/
theorem create_vesting_check_order (amount start cliff duration : Nat) :
    (create_vesting amount start cliff duration = .error (.Custom .StartCliffOverflow) ↔
      U64 ≤ start + cliff) ∧
    (create_vesting amount start cliff duration = .error (.Custom .CliffOverDuration) ↔
      start + cliff < U64 ∧ duration < cliff) ∧
    (create_vesting amount start cliff duration = .error (.Custom .ZeroAmount) ↔
      start + cliff < U64 ∧ cliff ≤ duration ∧ amount = 0) ∧
    (create_vesting amount start cliff duration = .ok ⟨amount, 0, start, cliff, duration⟩ ↔
      start + cliff < U64 ∧ cliff ≤ duration ∧ amount ≠ 0) := by
  unfold create_vesting
  by_cases h1 : U64 ≤ start + cliff
  · rw [if_pos h1]
    refine ⟨⟨fun _ => h1, fun _ => rfl⟩, ?_, ?_, ?_⟩ <;> constructor <;> intro h
    · exact absurd h (by simp)
    · exact absurd h.1 (by omega)
    · exact absurd h (by simp)
    · exact absurd h.1 (by omega)
    · exact absurd h (by simp)
    · exact absurd h.1 (by omega)
  · rw [if_neg h1]
    by_cases h2 : duration < cliff
    · rw [if_pos h2]
      refine ⟨?_, ⟨fun _ => ⟨lt_of_not_ge h1, h2⟩, fun _ => rfl⟩, ?_, ?_⟩ <;>
        constructor <;> intro h
      · exact absurd h (by simp)
      · exact absurd h h1
      · exact absurd h (by simp)
      · exact absurd h2 (by omega)
      · exact absurd h (by simp)
      · exact absurd h2 (by omega)
    · rw [if_neg h2]
      by_cases h3 : amount = 0
      · rw [if_pos h3]
        refine ⟨?_, ?_, ⟨fun _ => ⟨lt_of_not_ge h1, le_of_not_lt h2, h3⟩, fun _ => rfl⟩,
            ?_⟩ <;> constructor <;> intro h
        · exact absurd h (by simp)
        · exact absurd h h1
        · exact absurd h (by simp)
        · exact absurd h.2 h2
        · exact absurd h (by simp)
        · exact absurd h3 h.2.2
      · rw [if_neg h3]
        refine ⟨?_, ?_, ?_,
            ⟨fun _ => ⟨lt_of_not_ge h1, le_of_not_lt h2, h3⟩, fun _ => rfl⟩⟩ <;>
          constructor <;> intro h
        · exact absurd h (by simp)
        · exact absurd h h1
        · exact absurd h (by simp)
        · exact absurd h.2 h2
        · exact absurd h (by simp)
        · exact absurd h.2.2 h3

/-- Claim C9: a second Claim with an unchanged clock is a no-op — it
succeeds, computes a distribute of 0, and leaves `claimed` unchanged,
whatever the Vault balance then is. -/
theorem claim_idempotent_same_clock (v v' : Vesting) (bal now d bal' bal2 : Nat)
    (h : claim_step v bal now = some (v', d, bal')) :
    claim_step v' bal2 now = some (v', 0, bal2) := by
  rcases claim_step_some_inv v bal now v' d bal' h with ⟨total, hcalc, hle, _, _, _, rfl⟩
  unfold claim_step
  rw [show calculate_amount v.start v.cliff v.duration v.amount now = some total from hcalc]
  simp [Nat.sub_self]

/-- Claim C9 witness: a first claim at clock 2 fully vests the schedule;
the repeated claim at clock 2 distributes 0. -/
theorem claim_idempotent_same_clock_witness :
    claim_step ⟨5, 5, 0, 0, 1⟩ 7 2 = some (⟨5, 5, 0, 0, 1⟩, 0, 7) :=
  claim_idempotent_same_clock ⟨5, 0, 0, 0, 1⟩ ⟨5, 5, 0, 0, 1⟩ 5 2 5 0 7 (by decide)

/-- Claim C1 counterexample: with a fully vested schedule (`amount = 3`,
`duration = 1`, `now = 5`) and an under-funded Vault holding 1 token, the
Claim attempts to transfer 3 tokens and the whole invocation fails — it
does not move `min(wanted, balance) = 1`. -/
theorem claim_no_min_clamp_cex :
    claim_step ⟨3, 0, 0, 0, 1⟩ 1 5 = none ∧ min (3 - 0) 1 = 1 := by decide

/-- Claim C1 (amended): the quantity the Claim moves is exactly
`total - claimed` with no clamping against the Vault balance — when that
delta exceeds the balance the invocation fails entirely (the token
transfer rejects it) instead of moving the Vault's balance. -/
theorem claim_moves_exact_delta (v : Vesting) (bal now total : Nat)
    (hcalc : calculate_amount v.start v.cliff v.duration v.amount now = some total)
    (hle : v.claimed ≤ total) :
    claim_step v bal now =
      if bal < total - v.claimed then none
      else some ({ v with claimed := total }, total - v.claimed,
        bal - (total - v.claimed)) := by
  unfold claim_step
  rw [hcalc]
  dsimp only
  rw [if_neg (show ¬total < v.claimed by omega)]

/-- Claim C1 witness: a fully vested claim with a sufficient Vault moves
exactly the delta. -/
theorem claim_moves_exact_delta_witness :
    claim_step ⟨3, 1, 0, 0, 1⟩ 9 5 =
      if 9 < 3 - (⟨3, 1, 0, 0, 1⟩ : Vesting).claimed then none
      else some ({ (⟨3, 1, 0, 0, 1⟩ : Vesting) with claimed := 3 },
        3 - (⟨3, 1, 0, 0, 1⟩ : Vesting).claimed,
        9 - (3 - (⟨3, 1, 0, 0, 1⟩ : Vesting).claimed)) :=
  claim_moves_exact_delta ⟨3, 1, 0, 0, 1⟩ 9 5 3 (by decide) (by decide)

/-- Claim C2 counterexample: at `now - start ≥ duration` the calculator
returns the literal token count `amount` (5), not a distinguished
sentinel, and a Claim against an over-funded Vault (balance 10) sets
`claimed` to `amount` and moves 5 — it does not drain the Vault's 10. -/
theorem fully_vested_no_sentinel_cex :
    calculate_amount 0 0 1 5 2 = some 5 ∧
      claim_step ⟨5, 0, 0, 0, 1⟩ 10 2 = some (⟨5, 5, 0, 0, 1⟩, 5, 5) ∧
      (5 : Nat) < 10 := by decide

/-- Claim C2 (amended): once `now - start ≥ duration` (with the creation
invariants `cliff ≤ duration`, `duration ≠ 0`, no `start + cliff`
overflow, a `u64` grant) the calculator returns exactly the literal
`amount`, and a sufficiently funded Claim sets `claimed` to `amount`,
moving `amount - claimed` — never more than `amount`, whatever the Vault
holds. -/
theorem fully_vested_claim_literal_amount (v : Vesting) (bal now : Nat)
    (h64 : v.start + v.cliff < U64) (hd : v.duration ≠ 0) (hcd : v.cliff ≤ v.duration)
    (ha : v.amount < U64) (hnow : v.start + v.duration ≤ now)
    (hcl : v.claimed ≤ v.amount) (hbal : v.amount - v.claimed ≤ bal) :
    calculate_amount v.start v.cliff v.duration v.amount now = some v.amount ∧
      claim_step v bal now = some ({ v with claimed := v.amount },
        v.amount - v.claimed, bal - (v.amount - v.claimed)) := by
  have hcalc : calculate_amount v.start v.cliff v.duration v.amount now =
      some v.amount := by
    rw [calculate_amount_some_iff_u64 _ _ _ _ _ _ ha]
    right
    refine ⟨h64, by omega, hd, ?_⟩
    rw [Nat.min_eq_right (by omega), Nat.mul_div_assoc _ (dvd_refl _),
      Nat.div_self (Nat.pos_of_ne_zero hd), Nat.mul_one]
  refine ⟨hcalc, ?_⟩
  unfold claim_step
  rw [hcalc]
  dsimp only
  rw [if_neg (show ¬v.amount < v.claimed by omega),
    if_neg (show ¬bal < v.amount - v.claimed by omega)]

/-- Claim C2 witness: a partially claimed, fully vested schedule where the
Vault holds more than the grant. -/
theorem fully_vested_claim_literal_amount_witness :
    calculate_amount 0 0 1 5 2 = some (⟨5, 2, 0, 0, 1⟩ : Vesting).amount ∧
      claim_step ⟨5, 2, 0, 0, 1⟩ 10 2 = some ({ (⟨5, 2, 0, 0, 1⟩ : Vesting) with claimed := 5 },
        5 - (⟨5, 2, 0, 0, 1⟩ : Vesting).claimed, 10 - (5 - (⟨5, 2, 0, 0, 1⟩ : Vesting).claimed)) :=
  fully_vested_claim_literal_amount ⟨5, 2, 0, 0, 1⟩ 10 2 (by decide) (by decide) (by decide)
    (by decide) (by decide) (by decide) (by decide)

/-- Claim C4 counterexample: `create_vesting` accepts
`start = 0, cliff = 0, duration = 0, amount = 1` (the checks pass since
`cliff ≤ duration` and `amount ≠ 0`), yet `calculate_amount` on that
schedule at `now = 0` performs a division by zero and panics. -/
theorem calculate_amount_div_zero_cex :
    create_vesting 1 0 0 0 = .ok ⟨1, 0, 0, 0, 0⟩ ∧ calculate_amount 0 0 0 1 0 = none :=
  ⟨rfl, rfl⟩

/-- Claim C4 (amended): for parameters passing the creation checks AND
with `duration ≠ 0` (excluded only by the division-by-zero
counterexample), the calculator evaluates without panic at every clock:
the division is well defined, the result fits `u64` (it is at most
`amount`), and the double-width product does not overflow `2 ^ 128`. -/
theorem calculate_amount_no_panic (start cliff duration amount now : Nat)
    (h64 : start + cliff < U64) (_hcd : cliff ≤ duration) (_ha0 : amount ≠ 0)
    (hd : duration ≠ 0) (ha : amount < U64) (hn : now < U64) :
    (calculate_amount start cliff duration amount now).isSome = true ∧
      (calculate_amount start cliff duration amount now).getD 0 ≤ amount ∧
      amount * min (now - start) duration < U128 := by
  obtain ⟨t, ht⟩ := calculate_amount_total start cliff duration amount now h64 hd
  refine ⟨by rw [ht]; rfl, ?_, ?_⟩
  · rw [ht]
    exact calculate_amount_le start cliff duration amount now t ht
  · calc amount * min (now - start) duration ≤ (U64 - 1) * (U64 - 1) :=
        Nat.mul_le_mul (by omega) (by
          have h5 : min (now - start) duration ≤ now - start := Nat.min_le_left _ _
          omega)
      _ < U128 := by decide

/-- Claim C4 witness at a minimal nonzero-duration schedule. -/
theorem calculate_amount_no_panic_witness :
    (calculate_amount 0 0 1 1 0).isSome = true ∧
      (calculate_amount 0 0 1 1 0).getD 0 ≤ 1 ∧
      1 * min (0 - 0) 1 < U128 :=
  calculate_amount_no_panic 0 0 1 1 0 (by decide) (by decide) (by decide) (by decide)
    (by decide) (by decide)

/-- Claim C5 counterexample: at `start = 0, cliff = 0, duration = 2,
amount = 1` the clock `now = 1` is at or past the cliff
(`start + cliff = 0 ≤ 1`) yet the calculator still returns 0, so the
result is 0 NOT exactly when `now < start + cliff`. -/
theorem calculate_amount_zero_after_cliff_cex :
    calculate_amount 0 0 2 1 1 = some 0 ∧ 0 + 0 ≤ 1 := by decide

/-- Claim C5 (amended): over successful evaluations the unlock value is
non-decreasing in `now`, and it returns 0 whenever `now < start + cliff`;
the converse direction fails (the floored interpolation can still be 0 at
or after the cliff, as the counterexample shows). -/
theorem calculate_amount_monotone_zero_before_cliff
    (start cliff duration amount n1 n2 t1 t2 now : Nat)
    (ha : amount < U64) (h64 : start + cliff < U64) (h12 : n1 ≤ n2)
    (h1 : calculate_amount start cliff duration amount n1 = some t1)
    (h2 : calculate_amount start cliff duration amount n2 = some t2)
    (hnow : now < start + cliff) :
    t1 ≤ t2 ∧ calculate_amount start cliff duration amount now = some 0 := by
  refine ⟨calculate_amount_mono start cliff duration amount n1 n2 t1 t2 ha h12 h1 h2, ?_⟩
  exact (calculate_amount_some_iff _ _ _ _ _ _).2 (Or.inl ⟨h64, hnow, rfl⟩)

/-- Claim C5 witness at the spec's boundary schedule. -/
theorem calculate_amount_monotone_zero_before_cliff_witness :
    (200 : Nat) ≤ 990 ∧ calculate_amount 1000 20 100 1000 1019 = some 0 :=
  calculate_amount_monotone_zero_before_cliff 1000 20 100 1000 1020 1099 200 990 1019
    (by decide) (by decide) (by decide) (by decide) (by decide) (by decide)

/-- Claim C8 counterexample: a Claim with a genuine signer (signer flag
set, token-owned mint and wallet, valid PDAs) whose key (1) differs from
the vesting `user` (2) is rejected with `UnauthorizedClaimer` — the
processor does check who triggers the claim. -/
theorem claim_requires_beneficiary_signer_cex :
    process_claim_checks 0 ⟨true, 1, 0, 0, true, true⟩ 2 =
      .error (.Custom .UnauthorizedClaimer) := rfl

/-- Claim C8 (amended): the Claim dispatch enforces beneficiary
authorization: with a genuine signer and token-owned mint and wallet, the
validations succeed exactly when the signer's key equals the instruction's
`user` and both PDAs check out, and a key mismatch is reported as
`UnauthorizedClaimer`. -/
theorem claim_auth_gate (splId : Nat) (a : ClaimAccountsModel) (user : Nat)
    (hs : a.signerIsSigner = true) (hm : a.mintOwner = splId) (hw : a.walletOwner = splId) :
    (process_claim_checks splId a user = .ok () ↔
      a.signerKey = user ∧ a.vestingKeyValid = true ∧ a.vaultKeyValid = true) ∧
    (process_claim_checks splId a user = .error (.Custom .UnauthorizedClaimer) ↔
      a.signerKey ≠ user) := by
  unfold process_claim_checks
  rw [hs, hm, hw]
  by_cases hu : a.signerKey = user
  · rw [if_neg (by simp), if_neg (by simp), if_neg (by simp), if_neg (by simp [hu])]
    by_cases hv : a.vestingKeyValid
    · rw [if_neg (by simp [hv])]
      by_cases hva : a.vaultKeyValid
      · rw [if_neg (by simp [hva])]
        exact ⟨by simp [hu, hv, hva], by simp [hu]⟩
      · rw [if_pos (by simp [hva])]
        constructor <;> constructor <;> intro h
        · exact absurd h (by simp)
        · exact absurd h.2.2 hva
        · exact absurd h (by simp)
        · exact absurd hu h
    · rw [if_pos (by simp [hv])]
      constructor <;> constructor <;> intro h
      · exact absurd h (by simp)
      · exact absurd h.2.1 hv
      · exact absurd h (by simp)
      · exact absurd hu h
  · rw [if_neg (by simp), if_neg (by simp), if_neg (by simp), if_pos (by simp [hu])]
    constructor <;> constructor <;> intro h
    · exact absurd h (by simp)
    · exact absurd h.1 hu
    · exact hu
    · rfl

/-- Claim C8 witness: with matching signer key and valid PDAs the Claim
validations pass. -/
theorem claim_auth_gate_witness :
    (process_claim_checks 0 ⟨true, 1, 0, 0, true, true⟩ 1 = .ok () ↔
      (1 : Nat) = 1 ∧ true = true ∧ true = true) ∧
    (process_claim_checks 0 ⟨true, 1, 0, 0, true, true⟩ 1 =
        .error (.Custom .UnauthorizedClaimer) ↔ (1 : Nat) ≠ 1) :=
  claim_auth_gate 0 ⟨true, 1, 0, 0, true, true⟩ 1 rfl rfl rfl

/-- Claim C10: serializing a valid nine-field vesting record and reading
it back yields the identical record — fixed-width fields in declared
order, no padding, byte-exact round-trip. -/
theorem vesting_record_roundtrip (r : VestingRecord) (hv : r.valid) :
    VestingRecord.deserialize (VestingRecord.serialize r) = some r := by
  obtain ⟨h1, h2, h3, h4, h5, h6, h7, h8, h9⟩ := hv
  have hpow : (2 : Nat) ^ (8 * 8) = U64 := by norm_num [U64]
  unfold VestingRecord.serialize VestingRecord.deserialize
  rw [readBytes_append 32 _ _ h1]
  dsimp only [Option.bind_eq_bind, Option.bind]
  rw [readBytes_append 32 _ _ h2]
  dsimp only [Option.bind_eq_bind, Option.bind]
  rw [readBytes_append 32 _ _ h3]
  dsimp only [Option.bind_eq_bind, Option.bind]
  rw [readBytes_append 32 _ _ h4]
  dsimp only [Option.bind_eq_bind, Option.bind]
  rw [readBytes_append 8 _ _ (bytesLE_length 8 r.amount)]
  dsimp only [Option.bind_eq_bind, Option.bind]
  rw [readBytes_append 8 _ _ (bytesLE_length 8 r.claimed)]
  dsimp only [Option.bind_eq_bind, Option.bind]
  rw [readBytes_append 8 _ _ (bytesLE_length 8 r.start)]
  dsimp only [Option.bind_eq_bind, Option.bind]
  rw [readBytes_append 8 _ _ (bytesLE_length 8 r.cliff)]
  dsimp only [Option.bind_eq_bind, Option.bind]
  rw [readBytes_exact 8 _ (bytesLE_length 8 r.duration)]
  dsimp only [Option.bind_eq_bind, Option.bind]
  simp only [List.isEmpty_nil, if_true, unbytesLE_bytesLE, hpow,
    Nat.mod_eq_of_lt h5, Nat.mod_eq_of_lt h6, Nat.mod_eq_of_lt h7, Nat.mod_eq_of_lt h8,
    Nat.mod_eq_of_lt h9]

/-- Claim C10 witness at a concrete valid record. -/
theorem vesting_record_roundtrip_witness :
    VestingRecord.deserialize (VestingRecord.serialize
        ⟨List.replicate 32 1, List.replicate 32 2, List.replicate 32 3,
          List.replicate 32 4, 5, 0, 1000, 20, 100⟩) =
      some ⟨List.replicate 32 1, List.replicate 32 2, List.replicate 32 3,
        List.replicate 32 4, 5, 0, 1000, 20, 100⟩ :=
  vesting_record_roundtrip
    ⟨List.replicate 32 1, List.replicate 32 2, List.replicate 32 3,
      List.replicate 32 4, 5, 0, 1000, 20, 100⟩
    (by refine ⟨?_, ?_, ?_, ?_, ?_, ?_, ?_, ?_, ?_⟩ <;> decide)

/-- Fidelity check: the embedded calculator reproduces every value
asserted by the `test_calculate_amount` unit test of `src/processor.rs`. -/
theorem calculate_amount_matches_unit_tests :
    calculate_amount 1000 20 100 1000 500 = some 0 ∧
      calculate_amount 1000 20 100 1000 1000 = some 0 ∧
      calculate_amount 1000 20 100 1000 1010 = some 0 ∧
      calculate_amount 1000 20 100 1000 1019 = some 0 ∧
      calculate_amount 1000 20 100 1000 1020 = some 200 ∧
      calculate_amount 1000 20 100 1000 1090 = some 900 ∧
      calculate_amount 1000 20 100 1000 1099 = some 990 ∧
      calculate_amount 1000 20 100 1000 1100 = some 1000 ∧
      calculate_amount 1000 20 100 1000 1200 = some 1000 := by decide
